import Mathlib

/-!
Shallow embedding of the core of the `gtt` transit application:
the agency normalizers (`src/components/fetch/adapters.ts`) and the
multi-agency stop store (`gtaStopsDb.ts`).

Conventions of the embedding:
* JavaScript numbers that hold integral values (timestamps in ms,
  minute counts, flags) are modelled as `Int`; geographic coordinates
  and distances are modelled as `ℚ` (exact arithmetic in place of
  IEEE doubles).
* `new Date(s).getTime()` applied to a timestamp string is modelled by
  carrying the parsed millisecond value directly; `new Date()` (the
  current clock) becomes an explicit `now : Int` parameter.
* An optional JSON field that the code tests for truthiness is an
  `Option`; a field that may be absent, a bare (non-array) value, or an
  array is a `JsField`.
* `Math.sqrt d <= range` is embedded as the equivalent exact test
  `0 ≤ range ∧ d ≤ range ^ 2` (see `Real.sqrt_le_iff`); the lemma
  `sqrt_le_iff_rat` below records the equivalence, and the theorem for
  the range query is stated with `Real.sqrt` itself.
-/

namespace GTT

/-! ### JavaScript string / number primitives -/

/-- JavaScript truthiness of an optional string: `undefined`, `null`
and the empty string are falsy. -/
def truthyStr : Option String → Bool
  | none => false
  | some s => s ≠ ""

/-- JavaScript `a || b` on two optional strings (used for
`TrainNumber || BusNumber || undefined` and the platform fields). -/
def jsStrOrOpt (a b : Option String) : Option String :=
  if truthyStr a then a else b

/-- JavaScript `a || b` on two required strings (used for
`LineName || LineCode`). -/
def jsStrOr (a b : String) : String :=
  if a = "" then b else a

/-- JavaScript `Math.round(a / b)` for integers `a` and positive `b`:
round half up, `Math.round x = ⌊x + 1/2⌋`, and
`⌊a/b + 1/2⌋ = ⌊(2a + b) / (2b)⌋`, which is integer Euclidean division
for positive `b` (the lemma `jsRoundDiv_eq_floor` below proves the
equivalence with the rational form). -/
def jsRoundDiv (a b : Int) : Int := (2 * a + b) / (2 * b)

/-- Split a character list at every occurrence of `sep`, keeping empty
groups: the JavaScript `s.split(sep)` for a one-character separator. -/
def splitOnChar (sep : Char) : List Char → List (List Char)
  | [] => [[]]
  | c :: rest =>
    match splitOnChar sep rest with
    | [] => [[]]
    | g :: gs => if c = sep then [] :: g :: gs else (c :: g) :: gs

/-- JavaScript `s.trim()`: strip leading and trailing whitespace. -/
def trimChars (l : List Char) : List Char :=
  ((l.dropWhile Char.isWhitespace).reverse.dropWhile Char.isWhitespace).reverse

/-- Word character of the regex class `\w`, i.e. `[A-Za-z0-9_]`. -/
def isWordChar (c : Char) : Bool := c.isAlphanum || c = '_'

/-- Digit-string value: `some` of the value of the leading run of ASCII
digits, `none` when there is no leading digit. -/
def leadingDigitsVal (l : List Char) : Option Nat :=
  match l.takeWhile Char.isDigit with
  | [] => none
  | ds => some (ds.foldl (fun a c => a * 10 + (c.toNat - 48)) 0)

/-- JavaScript `parseInt(s, 10)`: skip leading whitespace, accept an
optional sign, then read the leading run of decimal digits; `none`
models `NaN` (no digits found). -/
def jsParseIntChars (s : List Char) : Option Int :=
  match s.dropWhile Char.isWhitespace with
  | '-' :: rest => (leadingDigitsVal rest).map (fun n => -(n : Int))
  | '+' :: rest => (leadingDigitsVal rest).map (fun n => (n : Int))
  | l => (leadingDigitsVal l).map (fun n => (n : Int))

/-- JavaScript `parseInt(s, 10)` on a string. -/
def jsParseInt (s : String) : Option Int := jsParseIntChars s.data

/-- Match of the regex `/^(\d+\w*)/`: when the string starts with an
ASCII digit, the capture is its longest prefix of word characters;
otherwise the match fails. -/
def matchLineTokenChars : List Char → Option String
  | [] => none
  | c :: rest => if c.isDigit then some (String.mk ((c :: rest).takeWhile isWordChar)) else none

/-- Match of the regex `/^(\d+\w*)/` on a string. -/
def matchLineToken (s : String) : Option String := matchLineTokenChars s.data

/-- Case-insensitive prefix test on character lists. -/
def ciStartsWith : List Char → List Char → Bool
  | [], _ => true
  | _ :: _, [] => false
  | p :: ps, c :: cs => (p.toLower = c.toLower) && ciStartsWith ps cs

/-- Scan for the regex `/towards (.+)$/i`: the earliest occurrence of
`"towards "` (case-insensitive) followed by at least one character; the
capture is everything after that occurrence. -/
def matchTowardsFrom : List Char → Option String
  | [] => none
  | c :: rest =>
    if ciStartsWith "towards ".data (c :: rest) && (c :: rest).drop 8 ≠ [] then
      some (String.mk ((c :: rest).drop 8))
    else
      matchTowardsFrom rest

/-- Match of the regex `/towards (.+)$/i` on a string. -/
def matchTowards (s : String) : Option String := matchTowardsFrom s.data

/-! ### Data model (`src/models/transit.ts`, `src/models/unified.ts`) -/

/-- AgencyID: closed enumeration of the supported transit agencies. -/
inductive AgencyID : Type
  | ttc
  | go
  | yrt
  | miway
  | brampton
deriving DecidableEq, Repr

/-- Crowding level of the optional `crowding` field. -/
inductive Crowding : Type
  | low
  | medium
  | high
deriving DecidableEq, Repr

/-- ArrivalPrediction: the unified arrival record produced by every
normalizer. `timeMinutes` is an `Int` because the code can, in
principle, store any parsed integer there. -/
structure ArrivalPrediction : Type where
  line : String
  destination : String
  timeMinutes : Int
  isGhost : Bool
  vehicleId : Option String := none
  crowding : Option Crowding := none
  platform : Option String := none
deriving DecidableEq, Repr

/-- JSON field that may be absent, a bare (non-array) value, or an
array; the three adapters test these shapes with `!x` and
`Array.isArray`. -/
inductive JsField (α : Type) : Type
  | absent
  | scalar (a : α)
  | array (l : List α)
deriving DecidableEq, Repr

/-- Coercion performed by `Array.isArray(x) ? x : [x]` after a truthiness
guard: `none` when the field is absent (falsy), otherwise the list. -/
def JsField.asList? : JsField α → Option (List α)
  | .absent => none
  | .scalar a => some [a]
  | .array l => some l

/-! ### GO Transit normalizer (`adapters.ts`, `normalizeGoTransit`) -/

/-- GoTransitService (from `src/models/unified.ts`). Timestamp strings
are carried as their parsed millisecond values; `ComputedDepartureTime`
is `none` when the field is absent or empty (falsy). -/
structure GoTransitService : Type where
  LineCode : String
  LineName : String
  DirectionName : String
  ScheduledDepartureTime : Int
  ComputedDepartureTime : Option Int
  ScheduledPlatform : String
  ActualPlatform : String
  Carrier : String := ""
  BusNumber : Option String := none
  TrainNumber : Option String := none
  DelaySeconds : Int := 0
  Computed : Int
deriving DecidableEq, Repr

/-- Payload field `data` of the GO proxy envelope. -/
structure GoApiData : Type where
  NextService : JsField GoTransitService
  StopCode : Option String := none
deriving DecidableEq, Repr

/-- GO proxy envelope `{agency, stopCode, data}`. -/
structure GoApiResponse : Type where
  agency : String
  stopCode : String
  data : GoApiData
deriving DecidableEq, Repr

/-- Body of the `services.map` lambda in `normalizeGoTransit`. -/
def goServiceToPrediction (now : Int) (service : GoTransitService) : ArrivalPrediction :=
  let scheduledTime : Int := service.ScheduledDepartureTime
  let computedTime : Int :=
    match service.ComputedDepartureTime with
    | some t => t
    | none => scheduledTime
  let departureTime : Int := if service.Computed = 1 then computedTime else scheduledTime
  let timeMinutes : Int := max 0 (jsRoundDiv (departureTime - now) 60000)
  let isGhost : Bool := service.Computed = 0
  let vehicleId : Option String := jsStrOrOpt service.TrainNumber service.BusNumber
  let platform : Option String :=
    jsStrOrOpt (some service.ActualPlatform) (some service.ScheduledPlatform) |>.filter (· ≠ "")
  { line := jsStrOr service.LineName service.LineCode
    destination := service.DirectionName
    timeMinutes := timeMinutes
    isGhost := isGhost
    vehicleId := vehicleId
    platform := platform }

/-- normalizeGoTransit: empty result unless `data.NextService` is an
array, else one prediction per service entry. `now` is the clock read
by `new Date()` inside the function. -/
def normalizeGoTransit (apiResponse : GoApiResponse) (now : Int) : List ArrivalPrediction :=
  match apiResponse.data.NextService with
  | .array services => services.map (goServiceToPrediction now)
  | _ => []

/-! ### TTC normalizer (`adapters.ts`, `normalizeTtc`)

The `EtaPredictionJson` input shape is reconstructed from its use in
`adapters.ts` and spec section 4.2: three nesting levels, each of which
may be absent, a bare object or an array. -/

/-- Leaf eta record: `minutes` (a string fed to `parseInt`) and an
optional `vehicle` identifier (already converted to its string form,
modelling `eta.vehicle?.toString()`). -/
structure EtaJson : Type where
  minutes : String
  vehicle : Option String := none
deriving DecidableEq, Repr

/-- Direction record: optional `title`, one-or-many `prediction`. -/
structure DirectionJson : Type where
  title : Option String := none
  prediction : JsField EtaJson
deriving DecidableEq, Repr

/-- Per-route prediction record: optional `routeTag`, one-or-many
`direction`. -/
structure PredJson : Type where
  routeTag : Option String := none
  direction : JsField DirectionJson
deriving DecidableEq, Repr

/-- Top-level TTC payload `{predictions}`. -/
structure EtaPredictionJson : Type where
  predictions : JsField PredJson
deriving DecidableEq, Repr

/-- Body of the innermost `for (const eta of etas)` loop of
`normalizeTtc`. -/
def ttcEtaToPrediction (pred : PredJson) (dir : DirectionJson) (eta : EtaJson) :
    ArrivalPrediction :=
  let lineMatch : Option String :=
    jsStrOrOpt (dir.title.bind matchLineToken) (pred.routeTag.bind matchLineToken)
  let line : String := jsStrOr (lineMatch.getD "") (jsStrOr (pred.routeTag.getD "") "")
  let destMatch : Option String := dir.title.bind matchTowards
  let destination : String := jsStrOr (destMatch.getD "") (jsStrOr (dir.title.getD "") "")
  { line := line
    destination := destination
    timeMinutes := (jsParseInt eta.minutes).getD 0
    isGhost := false
    vehicleId := eta.vehicle }

/-- normalizeTtc: `[]` when `predictions` is absent, otherwise iterate
the (coerced-to-list) predictions, skipping entries without a
`direction` and directions without a `prediction` substructure. -/
def normalizeTtc (json : EtaPredictionJson) : List ArrivalPrediction :=
  match json.predictions.asList? with
  | none => []
  | some predictionsArray =>
    predictionsArray.flatMap fun pred =>
      match pred.direction.asList? with
      | none => []
      | some directions =>
        directions.flatMap fun dir =>
          match dir.prediction.asList? with
          | none => []
          | some etas => etas.map (ttcEtaToPrediction pred dir)

/-! ### TTC subway normalizer (`adapters.ts`, `normalizeTtcSubway`) -/

/-- One item of the subway response:
`{nextTrains, directionText, line?}`. -/
structure SubwayItem : Type where
  nextTrains : String
  directionText : String
  line : Option Int := none
deriving DecidableEq, Repr

/-- Line label of a subway prediction: `item.line` is a JS number, so
`0` is falsy and also yields the generic label. -/
def subwayLineLabel (line : Option Int) : String :=
  match line with
  | some n => if n = 0 then "Subway" else "Line " ++ toString n
  | none => "Subway"

/-- Predictions contributed by one subway item: skip when `nextTrains`
is empty (falsy), else split on commas, trim and `parseInt` each token,
and keep only the tokens that parse (dropping `NaN`). -/
def subwayItemPredictions (item : SubwayItem) : List ArrivalPrediction :=
  if item.nextTrains = "" then []
  else
    (splitOnChar ',' item.nextTrains.data).filterMap fun t =>
      (jsParseIntChars (trimChars t)).map fun timeMinutes =>
        { line := subwayLineLabel item.line
          destination := item.directionText
          timeMinutes := timeMinutes
          isGhost := false }

/-- normalizeTtcSubway: concatenation of the per-item predictions. -/
def normalizeTtcSubway (response : List SubwayItem) : List ArrivalPrediction :=
  response.flatMap subwayItemPredictions

/-! ### Stop store (`gtaStopsDb.ts`)

The IndexedDB object store is modelled as a list of records; `put`
replaces the record with the same `id` (the key path) or appends.
Secondary-index cursors are modelled as filters over the store: the
cursor's key order only affects tie-breaking in the final
`realDistance` sort and duplicate resolution in `getStopByCode`, both
of which the spec leaves unspecified. -/

/-- Record persisted in the `stops` object store, including the
optional legacy fields. -/
structure StopRecord : Type where
  id : String
  code : String
  agency : AgencyID
  name : String
  lat : ℚ
  lon : ℚ
  tag : Option String := none
  stopId : Option String := none
  title : Option String := none
  lines : Option (List String) := none
  directions : Option String := none
  type : Option String := none
deriving DecidableEq, Repr

/-- UnifiedStop / TransitStop: the caller-facing stop shape. -/
structure UnifiedStop : Type where
  id : String
  code : String
  agency : AgencyID
  name : String
  lat : ℚ
  lon : ℚ
  distance : Option ℚ := none
deriving DecidableEq, Repr

/-- StopWithDistance: result shape of the store queries. In this
embedding `distance` holds the squared planar distance
`dLat^2 + dLon^2` (the source stores `Math.sqrt` of it; squaring is
order-preserving and keeps the field in `ℚ`). -/
structure StopWithDistance : Type where
  id : String
  code : String
  agency : AgencyID
  name : String
  lat : ℚ
  lon : ℚ
  distance : ℚ
  realDistance : ℚ
  title : String
  lines : List String := []
  directions : String := ""
  type : Option String := none
deriving DecidableEq, Repr

/-- Store state: the list of persisted records. -/
abbrev StopsDb : Type := List StopRecord

/-- IndexedDB `put`: insert-or-replace by the `id` key path. -/
def putStop (db : StopsDb) (r : StopRecord) : StopsDb :=
  if (db : List StopRecord).any (fun x => x.id = r.id) then
    (db : List StopRecord).map (fun x => if x.id = r.id then r else x)
  else
    (db : List StopRecord) ++ [r]

/-- Record written by `saveStops` for one stop: only the six base
fields, no legacy fields. -/
def stopToRecord (stop : UnifiedStop) : StopRecord :=
  { id := stop.id
    code := stop.code
    agency := stop.agency
    name := stop.name
    lat := stop.lat
    lon := stop.lon }

/-- saveStops: one `put` per stop, in list order (additive; does not
clear existing data). -/
def saveStops (db : StopsDb) (stops : List UnifiedStop) : StopsDb :=
  stops.foldl (fun acc stop => putStop acc (stopToRecord stop)) db

/-- clearAgency: delete every record whose agency matches (cursor over
the `agency` index, deleting as it goes). -/
def clearAgency (db : StopsDb) (agency : AgencyID) : StopsDb :=
  (db : List StopRecord).filter (fun r => ¬ r.agency = agency)

/-- Agency-filter test `!agencyFilter || stop.agency === agencyFilter`. -/
def agencyMatches (agencyFilter : Option AgencyID) (a : AgencyID) : Prop :=
  match agencyFilter with
  | none => True
  | some x => a = x

instance (agencyFilter : Option AgencyID) (a : AgencyID) :
    Decidable (agencyMatches agencyFilter a) := by
  unfold agencyMatches
  cases agencyFilter <;> infer_instance

/-- Ordering used by the final `results.sort((a, b) => a.realDistance -
b.realDistance)`. -/
def byRealDistance (a b : StopWithDistance) : Prop := a.realDistance ≤ b.realDistance

instance : DecidableRel byRealDistance := fun a b =>
  inferInstanceAs (Decidable (a.realDistance ≤ b.realDistance))

instance : IsTotal StopWithDistance byRealDistance :=
  ⟨fun a b => le_total a.realDistance b.realDistance⟩

instance : IsTrans StopWithDistance byRealDistance :=
  ⟨fun _ _ _ hab hbc => le_trans hab hbc⟩

/-- getStopsWithinRange: bounding-box prefilter on the `lat` index,
per-candidate longitude / agency / exact-disc checks, then sort by
`realDistance`. `realDist` abstracts `distanceOfTwoCoordinates` (the
haversine utility, whose source file is outside the core under
verification); none of the verified properties depend on its values.
The disc test `Math.sqrt(dd) <= range` is embedded as the equivalent
`0 ≤ range ∧ dd ≤ range ^ 2`. -/
def getStopsWithinRange (realDist : ℚ → ℚ → ℚ → ℚ → ℚ)
    (db : StopsDb) (lat lon range : ℚ) (agencyFilter : Option AgencyID) :
    List StopWithDistance :=
  let lowerLat := lat - range
  let upperLat := lat + range
  let lowerLon := lon - range
  let upperLon := lon + range
  let results := (db : List StopRecord).filterMap fun stop =>
    if lowerLat ≤ stop.lat ∧ stop.lat ≤ upperLat then
      if stop.lon ≥ lowerLon ∧ stop.lon ≤ upperLon then
        if agencyMatches agencyFilter stop.agency then
          let distance : ℚ := (stop.lat - lat) ^ 2 + (stop.lon - lon) ^ 2
          let realDistance : ℚ := realDist lat lon stop.lat stop.lon
          if 0 ≤ range ∧ distance ≤ range ^ 2 then
            some { id := stop.id
                   code := stop.code
                   agency := stop.agency
                   name := stop.name
                   lat := stop.lat
                   lon := stop.lon
                   distance := distance
                   realDistance := realDistance
                   title := jsStrOr (stop.title.getD "") stop.name
                   lines := stop.lines.getD []
                   directions := stop.directions.getD ""
                   type := stop.type }
          else none
        else none
      else none
    else none
  results.insertionSort byRealDistance

/-- Result record built by `getStop` and `getStopByCode`:
`distance` and `realDistance` are zero-valued. -/
def recordToStopWithDistance (stop : StopRecord) : StopWithDistance :=
  { id := stop.id
    code := stop.code
    agency := stop.agency
    name := stop.name
    lat := stop.lat
    lon := stop.lon
    distance := 0
    realDistance := 0
    title := jsStrOr (stop.title.getD "") stop.name
    lines := stop.lines.getD []
    directions := stop.directions.getD ""
    type := stop.type }

/-- getStop: primary-key lookup by `id`. -/
def getStop (db : StopsDb) (id : String) : Option StopWithDistance :=
  ((db : List StopRecord).find? (fun r => r.id = id)).map recordToStopWithDistance

/-- getStopByCode: scan the `code` index, return the first record whose
agency also matches. -/
def getStopByCode (db : StopsDb) (code : String) (agency : AgencyID) :
    Option StopWithDistance :=
  ((db : List StopRecord).find? (fun r => r.code = code ∧ r.agency = agency)).map
    recordToStopWithDistance

/-- clear: delete all records. -/
def clear (_db : StopsDb) : StopsDb := []

/-- getSize: total record count. -/
def getSize (db : StopsDb) : Nat := (db : List StopRecord).length

/-- getAgencyCount: count of the `agency` index entries for one
agency. -/
def getAgencyCount (db : StopsDb) (agency : AgencyID) : Nat :=
  (db : List StopRecord).countP (fun r => r.agency = agency)

/-- Eta records reachable by `normalizeTtc`'s iteration (same guards,
no transformation); used to state which `minutes` fields feed the
output. -/
def ttcEtas (json : EtaPredictionJson) : List EtaJson :=
  match json.predictions.asList? with
  | none => []
  | some predictionsArray =>
    predictionsArray.flatMap fun pred =>
      match pred.direction.asList? with
      | none => []
      | some directions =>
        directions.flatMap fun dir =>
          match dir.prediction.asList? with
          | none => []
          | some etas => etas

/-- Projection of an `ArrivalPrediction` forgetting `timeMinutes`;
used to state which output fields are independent of the clock. -/
def predSansTime (p : ArrivalPrediction) :
    String × String × Bool × Option String × Option Crowding × Option String :=
  (p.line, p.destination, p.isGhost, p.vehicleId, p.crowding, p.platform)

/-! ### Bridging lemmas -/

/-- Integer rounding agrees with the rational `⌊a/b + 1/2⌋` for a
positive divisor. -/
theorem jsRoundDiv_eq_floor (a b : Int) (hb : 0 < b) :
    jsRoundDiv a b = ⌊((a : ℚ) / (b : ℚ) + 1 / 2 : ℚ)⌋ := by
  have h2b : (0 : ℤ) ≤ 2 * b := by positivity
  have htn : (((2 * b).toNat : ℕ) : ℤ) = 2 * b := Int.toNat_of_nonneg h2b
  have hbQ : ((b : ℚ)) ≠ 0 := by
    exact_mod_cast hb.ne'
  have hcast : ((a : ℚ) / (b : ℚ) + 1 / 2 : ℚ) =
      ((2 * a + b : ℤ) : ℚ) / (((2 * b).toNat : ℕ) : ℚ) := by
    have : (((2 * b).toNat : ℕ) : ℚ) = 2 * (b : ℚ) := by
      exact_mod_cast congrArg (fun z : ℤ => (z : ℚ)) htn
    rw [this]
    field_simp
    ring
  rw [hcast, Rat.floor_intCast_div_natCast, htn]
  rfl

/-- Test `Math.sqrt d <= range` is equivalent to the exact rational
test used in the embedding. -/
theorem sqrt_le_iff_rat (d r : ℚ) :
    Real.sqrt (d : ℝ) ≤ (r : ℝ) ↔ (0 ≤ r ∧ d ≤ r ^ 2) := by
  rw [Real.sqrt_le_iff]
  constructor
  · rintro ⟨h1, h2⟩
    exact ⟨by exact_mod_cast h1, by exact_mod_cast h2⟩
  · rintro ⟨h1, h2⟩
    exact ⟨by exact_mod_cast h1, by exact_mod_cast h2⟩

/-- Length of a `filterMap` counts the inputs on which the function
succeeds. -/
theorem length_filterMap_isSome {α β : Type} (f : α → Option β) (l : List α) :
    (l.filterMap f).length = l.countP (fun a => (f a).isSome) := by
  induction l with
  | nil => rfl
  | cons a l ih =>
    cases h : f a <;>
      simp [List.filterMap_cons, h, List.countP_cons, ih]

/-- A successful `matchLineToken` capture is nonempty (it starts with
the matched digit). -/
theorem matchLineToken_ne_empty {s tok : String} (h : matchLineToken s = some tok) :
    tok ≠ "" := by
  unfold matchLineToken matchLineTokenChars at h
  rcases hd : s.data with _ | ⟨c, rest⟩ <;> rw [hd] at h
  · simp at h
  · by_cases hc : c.isDigit
    · simp only [hc, if_true, Option.some_inj] at h
      rw [← h]
      have hw : isWordChar c = true := by
        unfold isWordChar
        simp [Char.isAlphanum, hc]
      simp [List.takeWhile_cons, hw, String.ext_iff]
    · simp [hc] at h

/-! ### Theorems for the claims -/

/-- C1: for every GO-family service entry normalized by
`normalizeGoTransit`, the output is the entrywise image of the service
list, and the emitted prediction for an entry has `isGhost = true`
exactly when the entry's `Computed` flag is `0` (in particular false
when it is `1`), and `timeMinutes = max 0 ⌊(selected - now)/60000 +
1/2⌋` where `selected` is the computed departure time (falling back to
the scheduled one when absent, see C10) if `Computed = 1` and the
scheduled departure time otherwise; in particular `timeMinutes` is
never negative. -/
theorem goTransit_ghost_and_time (resp : GoApiResponse) (now : Int)
    (services : List GoTransitService)
    (hs : resp.data.NextService = JsField.array services)
    (service : GoTransitService) (hmem : service ∈ services) :
    normalizeGoTransit resp now = services.map (goServiceToPrediction now) ∧
    ((goServiceToPrediction now service).isGhost = true ↔ service.Computed = 0) ∧
    (goServiceToPrediction now service).timeMinutes =
      max 0 ⌊((((if service.Computed = 1 then
          service.ComputedDepartureTime.getD service.ScheduledDepartureTime
        else service.ScheduledDepartureTime) - now : Int) : ℚ) / 60000 + 1 / 2 : ℚ)⌋ ∧
    0 ≤ (goServiceToPrediction now service).timeMinutes := by
  refine ⟨?_, ?_, ?_, ?_⟩
  · unfold normalizeGoTransit
    rw [hs]
  · unfold goServiceToPrediction
    constructor
    · intro h
      simpa using h
    · intro h
      simp [h]
  · show max 0 (jsRoundDiv _ 60000) = _
    rw [jsRoundDiv_eq_floor _ 60000 (by norm_num)]
    have hc : (((60000 : ℤ) : ℚ)) = (60000 : ℚ) := by norm_num
    rw [hc]
    rcases h : service.ComputedDepartureTime with _ | t <;>
      simp [h]
  · exact le_max_left 0 _

/-- Witness for C1 at a concrete one-service payload. -/
theorem goTransit_ghost_and_time_witness :
    normalizeGoTransit
      { agency := "go", stopCode := "UN",
        data := { NextService := JsField.array [
          { LineCode := "LW", LineName := "Lakeshore West", DirectionName := "Union Station",
            ScheduledDepartureTime := 300000, ComputedDepartureTime := none,
            ScheduledPlatform := "", ActualPlatform := "", Computed := 0 }] } } 0 =
      List.map (goServiceToPrediction 0)
        [{ LineCode := "LW", LineName := "Lakeshore West", DirectionName := "Union Station",
           ScheduledDepartureTime := 300000, ComputedDepartureTime := none,
           ScheduledPlatform := "", ActualPlatform := "", Computed := 0 }] ∧
    ((goServiceToPrediction 0
      { LineCode := "LW", LineName := "Lakeshore West", DirectionName := "Union Station",
        ScheduledDepartureTime := 300000, ComputedDepartureTime := none,
        ScheduledPlatform := "", ActualPlatform := "", Computed := 0 }).isGhost = true ↔
      (0 : Int) = 0) ∧
    (goServiceToPrediction 0
      { LineCode := "LW", LineName := "Lakeshore West", DirectionName := "Union Station",
        ScheduledDepartureTime := 300000, ComputedDepartureTime := none,
        ScheduledPlatform := "", ActualPlatform := "", Computed := 0 }).timeMinutes =
      max 0 ⌊((((if (0 : Int) = 1 then
          Option.getD (none : Option Int) 300000
        else (300000 : Int)) - 0 : Int) : ℚ) / 60000 + 1 / 2 : ℚ)⌋ ∧
    0 ≤ (goServiceToPrediction 0
      { LineCode := "LW", LineName := "Lakeshore West", DirectionName := "Union Station",
        ScheduledDepartureTime := 300000, ComputedDepartureTime := none,
        ScheduledPlatform := "", ActualPlatform := "", Computed := 0 }).timeMinutes :=
  goTransit_ghost_and_time
    { agency := "go", stopCode := "UN",
      data := { NextService := JsField.array [
        { LineCode := "LW", LineName := "Lakeshore West", DirectionName := "Union Station",
          ScheduledDepartureTime := 300000, ComputedDepartureTime := none,
          ScheduledPlatform := "", ActualPlatform := "", Computed := 0 }] } } 0
    [{ LineCode := "LW", LineName := "Lakeshore West", DirectionName := "Union Station",
       ScheduledDepartureTime := 300000, ComputedDepartureTime := none,
       ScheduledPlatform := "", ActualPlatform := "", Computed := 0 }]
    rfl
    { LineCode := "LW", LineName := "Lakeshore West", DirectionName := "Union Station",
      ScheduledDepartureTime := 300000, ComputedDepartureTime := none,
      ScheduledPlatform := "", ActualPlatform := "", Computed := 0 }
    (by decide)

/-- C10: when a GO service entry has no `ComputedDepartureTime`, the
departure time used for `timeMinutes` is the `ScheduledDepartureTime`
even when `Computed = 1`, and `isGhost` is still `false` in that
case. -/
theorem goTransit_computed_time_fallback (agency stopCode : String)
    (stopc : Option String) (now : Int) (service : GoTransitService)
    (habs : service.ComputedDepartureTime = none) :
    normalizeGoTransit ⟨agency, stopCode, ⟨JsField.array [service], stopc⟩⟩ now =
      [goServiceToPrediction now service] ∧
    (goServiceToPrediction now service).timeMinutes =
      max 0 (jsRoundDiv (service.ScheduledDepartureTime - now) 60000) ∧
    (service.Computed = 1 → (goServiceToPrediction now service).isGhost = false) := by
  refine ⟨rfl, ?_, ?_⟩
  · unfold goServiceToPrediction
    rw [habs]
    simp
  · intro h1
    unfold goServiceToPrediction
    simp [h1]

/-- Witness for C10 at a concrete entry with `Computed = 1` and no
computed departure time. -/
theorem goTransit_computed_time_fallback_witness :
    normalizeGoTransit ⟨"go", "UN", ⟨JsField.array [
      { LineCode := "LW", LineName := "Lakeshore West", DirectionName := "Union Station",
        ScheduledDepartureTime := 300000, ComputedDepartureTime := none,
        ScheduledPlatform := "", ActualPlatform := "", Computed := 1 }], none⟩⟩ 0 =
      [goServiceToPrediction 0
        { LineCode := "LW", LineName := "Lakeshore West", DirectionName := "Union Station",
          ScheduledDepartureTime := 300000, ComputedDepartureTime := none,
          ScheduledPlatform := "", ActualPlatform := "", Computed := 1 }] ∧
    (goServiceToPrediction 0
      { LineCode := "LW", LineName := "Lakeshore West", DirectionName := "Union Station",
        ScheduledDepartureTime := 300000, ComputedDepartureTime := none,
        ScheduledPlatform := "", ActualPlatform := "", Computed := 1 }).timeMinutes =
      max 0 (jsRoundDiv (300000 - 0) 60000) ∧
    ((1 : Int) = 1 → (goServiceToPrediction 0
      { LineCode := "LW", LineName := "Lakeshore West", DirectionName := "Union Station",
        ScheduledDepartureTime := 300000, ComputedDepartureTime := none,
        ScheduledPlatform := "", ActualPlatform := "", Computed := 1 }).isGhost = false) :=
  goTransit_computed_time_fallback "go" "UN" none 0
    { LineCode := "LW", LineName := "Lakeshore West", DirectionName := "Union Station",
      ScheduledDepartureTime := 300000, ComputedDepartureTime := none,
      ScheduledPlatform := "", ActualPlatform := "", Computed := 1 }
    rfl

/-- C6: per subway item, the number of emitted predictions equals the
number of comma-separated tokens of `nextTrains` whose trimmed form
parses as an integer, and every prediction of the normalizer is
non-ghost. -/
theorem subway_count_and_live (resp : List SubwayItem) (item : SubwayItem) :
    (subwayItemPredictions item).length =
      (splitOnChar ',' item.nextTrains.data).countP
        (fun t => (jsParseIntChars (trimChars t)).isSome) ∧
    (normalizeTtcSubway resp).all (fun p => !p.isGhost) = true := by
  constructor
  · by_cases h : item.nextTrains = ""
    · have hdata : item.nextTrains.data = [] := by
        rw [h]
      rw [hdata]
      simp [subwayItemPredictions, h]
      decide
    · simp [subwayItemPredictions, h, length_filterMap_isSome]
  · simp only [normalizeTtcSubway, List.all_eq_true, List.mem_flatMap]
    rintro p ⟨it, _hit, hp⟩
    unfold subwayItemPredictions at hp
    split at hp
    · exact absurd hp (by simp)
    · simp only [List.mem_filterMap] at hp
      obtain ⟨t, _ht, hmap⟩ := hp
      obtain ⟨m, _hm, rfl⟩ := Option.map_eq_some'.mp hmap
      rfl

/-- Witness for C6 at the spec's scenario payload. -/
theorem subway_count_and_live_witness :
    (subwayItemPredictions
        { nextTrains := "3, 7, x, 12", directionText := "Northbound", line := some 1 }).length =
      (splitOnChar ','
        ("3, 7, x, 12" : String).data).countP
        (fun t => (jsParseIntChars (trimChars t)).isSome) ∧
    (normalizeTtcSubway
        [{ nextTrains := "3, 7, x, 12", directionText := "Northbound", line := some 1 }]).all
      (fun p => !p.isGhost) = true :=
  subway_count_and_live
    [{ nextTrains := "3, 7, x, 12", directionText := "Northbound", line := some 1 }]
    { nextTrains := "3, 7, x, 12", directionText := "Northbound", line := some 1 }

/-- C2 counterexample: a TTC prediction whose `minutes` field parses to
a negative integer is emitted with that negative `timeMinutes`, so not
every normalized prediction satisfies `timeMinutes ≥ 0`. -/
theorem ttc_nonneg_counterexample :
    ¬ (∀ p ∈ normalizeTtc
        { predictions := JsField.array [
          { routeTag := some "504",
            direction := JsField.scalar
              { title := some "504 King towards Distillery Loop",
                prediction := JsField.scalar { minutes := "-5" } } }] },
        0 ≤ p.timeMinutes) := by
  decide

/-- C2 amended: `normalizeGoTransit` always emits `timeMinutes ≥ 0`
(the clamp), while `normalizeTtc` and `normalizeTtcSubway` emit
`timeMinutes ≥ 0` provided no minutes field / token of the payload
parses to a negative integer (negative parses are passed through
unclamped). -/
theorem normalizers_nonneg_amended :
    (∀ (resp : GoApiResponse) (now : Int) (p : ArrivalPrediction),
        p ∈ normalizeGoTransit resp now → 0 ≤ p.timeMinutes) ∧
    (∀ json : EtaPredictionJson,
        (∀ eta ∈ ttcEtas json, 0 ≤ (jsParseInt eta.minutes).getD 0) →
        ∀ p ∈ normalizeTtc json, 0 ≤ p.timeMinutes) ∧
    (∀ resp : List SubwayItem,
        (∀ item ∈ resp, ∀ t ∈ splitOnChar ',' item.nextTrains.data,
          ∀ m : Int, jsParseIntChars (trimChars t) = some m → 0 ≤ m) →
        ∀ p ∈ normalizeTtcSubway resp, 0 ≤ p.timeMinutes) := by
  refine ⟨?_, ?_, ?_⟩
  · intro resp now p hp
    unfold normalizeGoTransit at hp
    split at hp
    case _ services =>
      obtain ⟨service, _hs, rfl⟩ := List.mem_map.mp hp
      exact le_max_left 0 _
    case _ => exact absurd hp (by simp)
  · intro json hmins p hp
    unfold normalizeTtc at hp
    unfold ttcEtas at hmins
    rcases hpl : json.predictions.asList? with _ | preds <;> rw [hpl] at hp hmins
    · exact absurd hp (by simp)
    · simp only [List.mem_flatMap] at hp
      obtain ⟨pred, hpred, hp⟩ := hp
      rcases hdl : pred.direction.asList? with _ | dirs <;> rw [hdl] at hp
      · exact absurd hp (by simp)
      · simp only [List.mem_flatMap] at hp
        obtain ⟨dir, hdir, hp⟩ := hp
        rcases hel : dir.prediction.asList? with _ | etas <;> rw [hel] at hp
        · exact absurd hp (by simp)
        · obtain ⟨eta, heta, rfl⟩ := List.mem_map.mp hp
          have hmem : eta ∈ preds.flatMap fun pred =>
              match pred.direction.asList? with
              | none => []
              | some directions =>
                directions.flatMap fun dir =>
                  match dir.prediction.asList? with
                  | none => []
                  | some etas => etas := by
            refine List.mem_flatMap.mpr ⟨pred, hpred, ?_⟩
            rw [hdl]
            refine List.mem_flatMap.mpr ⟨dir, hdir, ?_⟩
            rw [hel]
            exact heta
          have hge := hmins eta hmem
          simpa [ttcEtaToPrediction, jsParseInt] using hge
  · intro resp hmins p hp
    unfold normalizeTtcSubway at hp
    simp only [List.mem_flatMap] at hp
    obtain ⟨item, hitem, hp⟩ := hp
    unfold subwayItemPredictions at hp
    split at hp
    · exact absurd hp (by simp)
    · simp only [List.mem_filterMap] at hp
      obtain ⟨t, ht, hmap⟩ := hp
      obtain ⟨m, hm, rfl⟩ := Option.map_eq_some'.mp hmap
      exact hmins item hitem t ht m hm

/-- Witness for the amended C2 at a concrete TTC payload whose minutes
parse nonnegative. -/
theorem normalizers_nonneg_amended_witness :
    ∀ p ∈ normalizeTtc
        { predictions := JsField.array [
          { routeTag := some "504",
            direction := JsField.scalar
              { title := some "504 King towards Distillery Loop",
                prediction := JsField.scalar { minutes := "5" } } }] },
      0 ≤ p.timeMinutes :=
  normalizers_nonneg_amended.2.1
    { predictions := JsField.array [
      { routeTag := some "504",
        direction := JsField.scalar
          { title := some "504 King towards Distillery Loop",
            prediction := JsField.scalar { minutes := "5" } } }] }
    (by decide)

/-- C7 counterexample: with direction title `"King St"` and route tag
`"King"`, neither string starts with a digit token, yet the emitted
`line` is the raw route tag `"King"`, not the empty string. -/
theorem ttc_line_empty_counterexample :
    matchLineToken "King St" = none ∧ matchLineToken "King" = none ∧
    ¬ (∀ p ∈ normalizeTtc
        { predictions := JsField.scalar
            { routeTag := some "King",
              direction := JsField.scalar
                { title := some "King St",
                  prediction := JsField.scalar { minutes := "5" } } } },
        p.line = "") := by
  decide

/-- C7 amended: the emitted `line` is the leading digits-plus-word
token of the direction title; failing that, the same token of the
route tag; and when both pattern matches fail, the raw route tag
(hence the empty string only when the route tag is absent or
empty). -/
theorem ttc_line_extraction (pred : PredJson) (dir : DirectionJson) (eta : EtaJson) :
    (∀ tok : String, dir.title.bind matchLineToken = some tok →
      (ttcEtaToPrediction pred dir eta).line = tok) ∧
    (dir.title.bind matchLineToken = none →
      ∀ tok : String, pred.routeTag.bind matchLineToken = some tok →
      (ttcEtaToPrediction pred dir eta).line = tok) ∧
    (dir.title.bind matchLineToken = none →
      pred.routeTag.bind matchLineToken = none →
      (ttcEtaToPrediction pred dir eta).line = pred.routeTag.getD "") := by
  have hne : ∀ (o : Option String) (tok : String),
      o.bind matchLineToken = some tok → tok ≠ "" := by
    intro o tok h
    rcases o with _ | s
    · exact absurd h (by simp)
    · exact matchLineToken_ne_empty (by simpa using h)
  refine ⟨?_, ?_, ?_⟩
  · intro tok htok
    have hne' := hne _ _ htok
    unfold ttcEtaToPrediction jsStrOrOpt truthyStr
    rw [htok]
    simp [hne', jsStrOr]
  · intro hnone tok htok
    have hne' := hne _ _ htok
    unfold ttcEtaToPrediction jsStrOrOpt truthyStr
    rw [hnone, htok]
    simp [hne', jsStrOr]
  · intro hnone₁ hnone₂
    unfold ttcEtaToPrediction jsStrOrOpt truthyStr
    rw [hnone₁, hnone₂]
    rcases pred.routeTag with _ | rt
    · simp [jsStrOr]
    · by_cases hrt : rt = "" <;> simp [jsStrOr, hrt]

/-- Witness for the amended C7: the title's leading token wins. -/
theorem ttc_line_extraction_witness :
    (ttcEtaToPrediction
      { routeTag := some "504", direction := JsField.absent }
      { title := some "504 King towards Distillery Loop",
        prediction := JsField.scalar { minutes := "5" } }
      { minutes := "5" }).line = "504" :=
  (ttc_line_extraction
    { routeTag := some "504", direction := JsField.absent }
    { title := some "504 King towards Distillery Loop",
      prediction := JsField.scalar { minutes := "5" } }
    { minutes := "5" }).1 "504" (by decide)

/-- C8: malformed-input tolerance. A missing or non-array GO
`NextService` yields `[]`; a missing TTC `predictions` yields `[]`; a
prediction without a `direction` substructure and a direction without
a `prediction` substructure contribute nothing; an item with an empty
`nextTrains` contributes nothing. (Totality — no thrown errors — holds
by construction: every embedded normalizer is a total function.) -/
theorem normalizers_malformed_tolerant :
    (∀ (a sc : String) (stopc : Option String) (now : Int),
      normalizeGoTransit ⟨a, sc, ⟨JsField.absent, stopc⟩⟩ now = [] ∧
      ∀ v : GoTransitService,
        normalizeGoTransit ⟨a, sc, ⟨JsField.scalar v, stopc⟩⟩ now = []) ∧
    (normalizeTtc ⟨JsField.absent⟩ = []) ∧
    (∀ (rt : Option String) (preds : List PredJson),
      normalizeTtc ⟨JsField.array ({ routeTag := rt, direction := JsField.absent } :: preds)⟩ =
        normalizeTtc ⟨JsField.array preds⟩) ∧
    (∀ (rt : Option String) (t : Option String) (dirs : List DirectionJson),
      normalizeTtc
          ⟨JsField.array
            [{ routeTag := rt,
               direction := JsField.array
                 ({ title := t, prediction := JsField.absent } :: dirs) }]⟩ =
        normalizeTtc ⟨JsField.array [{ routeTag := rt, direction := JsField.array dirs }]⟩) ∧
    (∀ (item : SubwayItem) (rest : List SubwayItem), item.nextTrains = "" →
      normalizeTtcSubway (item :: rest) = normalizeTtcSubway rest) := by
  refine ⟨fun a sc stopc now => ⟨rfl, fun v => rfl⟩, rfl, ?_, ?_, ?_⟩
  · intro rt preds
    simp [normalizeTtc, JsField.asList?]
  · intro rt t dirs
    simp only [normalizeTtc, JsField.asList?]
    rfl
  · intro item rest h
    simp [normalizeTtcSubway, subwayItemPredictions, h]

/-- Witness for C8 at concrete malformed payloads. -/
theorem normalizers_malformed_tolerant_witness :
    normalizeTtcSubway
        ([{ nextTrains := "", directionText := "Northbound", line := some 1 },
          { nextTrains := "4", directionText := "Southbound", line := some 2 }]) =
      normalizeTtcSubway [{ nextTrains := "4", directionText := "Southbound", line := some 2 }] :=
  normalizers_malformed_tolerant.2.2.2.2
    { nextTrains := "", directionText := "Northbound", line := some 1 }
    [{ nextTrains := "4", directionText := "Southbound", line := some 2 }]
    rfl

/-- C9 counterexample: `normalizeGoTransit` reads the clock, so the
same payload normalized at two different times yields different
`timeMinutes` — the claim that two calls on the same payload are equal
regardless of when they occur is false. -/
theorem goTransit_clock_counterexample :
    normalizeGoTransit
      { agency := "go", stopCode := "UN",
        data := { NextService := JsField.array [
          { LineCode := "LW", LineName := "Lakeshore West", DirectionName := "Union Station",
            ScheduledDepartureTime := 300000, ComputedDepartureTime := none,
            ScheduledPlatform := "", ActualPlatform := "", Computed := 0 }] } } 0 ≠
    normalizeGoTransit
      { agency := "go", stopCode := "UN",
        data := { NextService := JsField.array [
          { LineCode := "LW", LineName := "Lakeshore West", DirectionName := "Union Station",
            ScheduledDepartureTime := 300000, ComputedDepartureTime := none,
            ScheduledPlatform := "", ActualPlatform := "", Computed := 0 }] } } 300000 := by
  decide

/-- C9 amended: `normalizeTtc` and `normalizeTtcSubway` are pure
functions of their payload, so repeated calls on the same input agree;
`normalizeGoTransit` additionally depends on the clock, but only
through `timeMinutes`: two calls on the same payload at any two times
agree on every other field (line, destination, isGhost, vehicleId,
crowding, platform). -/
theorem goTransit_time_only_clock_dependence (resp : GoApiResponse) (n₁ n₂ : Int) :
    (normalizeGoTransit resp n₁).map predSansTime =
      (normalizeGoTransit resp n₂).map predSansTime := by
  unfold normalizeGoTransit
  cases resp.data.NextService with
  | absent => rfl
  | scalar v => rfl
  | array services =>
    simp only [List.map_map]
    have hfun : predSansTime ∘ goServiceToPrediction n₁ =
        predSansTime ∘ goServiceToPrediction n₂ := by
      funext service
      rfl
    rw [hfun]

/-- C5: `clearAgency X` deletes exactly the records of agency `X`:
afterwards the `X` count is zero, while for every other agency `Y` both
the `Y` records and the `Y` count are unchanged. -/
theorem clearAgency_exact (db : StopsDb) (X : AgencyID) :
    getAgencyCount (clearAgency db X) X = 0 ∧
    ∀ Y : AgencyID, Y ≠ X →
      (clearAgency db X).filter (fun r => r.agency = Y) =
        db.filter (fun r => r.agency = Y) ∧
      getAgencyCount (clearAgency db X) Y = getAgencyCount db Y := by
  refine ⟨?_, ?_⟩
  · rw [getAgencyCount, clearAgency, List.countP_filter]
    simp
  · intro Y hY
    constructor
    · rw [clearAgency, List.filter_filter]
      apply List.filter_congr
      intro r _
      by_cases h : r.agency = Y
      · have : ¬ r.agency = X := by
          rw [h]
          exact hY
        simp [h, this, hY]
      · simp [h]
    · rw [getAgencyCount, getAgencyCount, clearAgency, List.countP_filter]
      apply List.countP_congr
      intro r _
      by_cases h : r.agency = Y
      · have : ¬ r.agency = X := by
          rw [h]
          exact hY
        simp [h, this, hY]
      · simp [h]

/-- Witness for C5 on a concrete two-agency store. -/
theorem clearAgency_exact_witness :
    getAgencyCount (clearAgency
      [{ id := "GO_UN", code := "UN", agency := AgencyID.go, name := "Union Station",
         lat := 43, lon := -79 },
       { id := "TTC_1", code := "1", agency := AgencyID.ttc, name := "King",
         lat := 43, lon := -79 }] AgencyID.go) AgencyID.go = 0 ∧
    (clearAgency
      [{ id := "GO_UN", code := "UN", agency := AgencyID.go, name := "Union Station",
         lat := 43, lon := -79 },
       { id := "TTC_1", code := "1", agency := AgencyID.ttc, name := "King",
         lat := 43, lon := -79 }] AgencyID.go).filter (fun r => r.agency = AgencyID.ttc) =
      ([{ id := "GO_UN", code := "UN", agency := AgencyID.go, name := "Union Station",
          lat := 43, lon := -79 },
        { id := "TTC_1", code := "1", agency := AgencyID.ttc, name := "King",
          lat := 43, lon := -79 }] : StopsDb).filter (fun r => r.agency = AgencyID.ttc) ∧
    getAgencyCount (clearAgency
      [{ id := "GO_UN", code := "UN", agency := AgencyID.go, name := "Union Station",
         lat := 43, lon := -79 },
       { id := "TTC_1", code := "1", agency := AgencyID.ttc, name := "King",
         lat := 43, lon := -79 }] AgencyID.go) AgencyID.ttc =
      getAgencyCount
        [{ id := "GO_UN", code := "UN", agency := AgencyID.go, name := "Union Station",
           lat := 43, lon := -79 },
         { id := "TTC_1", code := "1", agency := AgencyID.ttc, name := "King",
           lat := 43, lon := -79 }] AgencyID.ttc := by
  have h := clearAgency_exact
    [{ id := "GO_UN", code := "UN", agency := AgencyID.go, name := "Union Station",
       lat := 43, lon := -79 },
     { id := "TTC_1", code := "1", agency := AgencyID.ttc, name := "King",
       lat := 43, lon := -79 }] AgencyID.go
  have h2 := h.2 AgencyID.ttc (by decide)
  exact ⟨h.1, h2.1, h2.2⟩

/-- Lookup after a `put` of `r` finds exactly `r` under `r`'s key. -/
theorem find?_putStop_self (db : StopsDb) (r : StopRecord) :
    (putStop db r).find? (fun x => x.id = r.id) = some r := by
  unfold putStop
  induction db with
  | nil =>
    simp [List.find?]
  | cons x rest ih =>
    by_cases hx : x.id = r.id
    · simp [List.any_cons, hx, List.find?_cons]
    · by_cases ha : rest.any (fun y => y.id = r.id)
      · rw [if_pos ha] at ih
        simp only [List.any_cons, hx, decide_eq_true_eq, decide_False, Bool.false_or]
        rw [if_pos (by simpa using ha)]
        simp only [List.map_cons, if_neg hx, List.find?_cons]
        rw [show (decide (x.id = r.id)) = false by simpa using hx]
        exact ih
      · rw [if_neg ha] at ih
        rw [if_neg (by simpa [hx] using ha)]
        simp only [List.cons_append, List.find?_cons]
        rw [show (decide (x.id = r.id)) = false by simpa using hx]
        exact ih

/-- Key-respecting replacement does not change lookups under a key
different from the replaced one. -/
theorem find?_map_replace (rest : List StopRecord) (r : StopRecord) (id : String)
    (h : ¬ r.id = id) :
    (rest.map (fun x => if x.id = r.id then r else x)).find? (fun x => x.id = id) =
      rest.find? (fun x => x.id = id) := by
  induction rest with
  | nil => rfl
  | cons x rest ih =>
    by_cases hx : x.id = r.id
    · simp only [List.map_cons, if_pos hx, List.find?_cons]
      have h1 : (decide (r.id = id)) = false := by simpa using h
      have h2 : (decide (x.id = id)) = false := by simpa [hx] using h
      rw [h1, h2]
      exact ih
    · simp only [List.map_cons, if_neg hx, List.find?_cons]
      cases hxi : (decide (x.id = id))
      · exact ih
      · rfl

/-- A `put` of `r` does not change lookups under other keys. -/
theorem find?_putStop_other (db : StopsDb) (r : StopRecord) (id : String)
    (h : ¬ r.id = id) :
    (putStop db r).find? (fun x => x.id = id) = db.find? (fun x => x.id = id) := by
  unfold putStop
  split
  · exact find?_map_replace db r id h
  · rw [List.find?_append]
    have hnone : List.find? (fun x => x.id = id) [r] = none := by
      have h1 : (decide (r.id = id)) = false := by simpa using h
      simp [List.find?_cons, h1]
    rw [hnone, Option.or_none]

/-- Saving stops none of which carry `id` leaves the lookup of `id`
unchanged. -/
theorem find?_saveStops_not_mem (db : StopsDb) (stops : List UnifiedStop) (id : String)
    (h : ∀ t ∈ stops, ¬ t.id = id) :
    (saveStops db stops).find? (fun x => x.id = id) = db.find? (fun x => x.id = id) := by
  induction stops generalizing db with
  | nil => rfl
  | cons a rest ih =>
    simp only [saveStops, List.foldl_cons]
    have hstep := find?_putStop_other db (stopToRecord a) id
      (h a (List.mem_cons_self a rest))
    calc (List.foldl (fun acc stop => putStop acc (stopToRecord stop))
          (putStop db (stopToRecord a)) rest).find? (fun x => x.id = id)
        = (putStop db (stopToRecord a)).find? (fun x => x.id = id) :=
          ih (putStop db (stopToRecord a)) (fun t ht => h t (List.mem_cons_of_mem a ht))
      _ = db.find? (fun x => x.id = id) := hstep

/-- After `saveStops`, the lookup of the id of a batch stop whose id is
unique in the batch returns exactly that stop's written record. -/
theorem find?_saveStops_mem (db : StopsDb) (stops : List UnifiedStop) (s : UnifiedStop)
    (hmem : s ∈ stops) (huniq : ∀ t ∈ stops, t.id = s.id → t = s) :
    (saveStops db stops).find? (fun x => x.id = s.id) = some (stopToRecord s) := by
  induction stops generalizing db with
  | nil => cases hmem
  | cons a rest ih =>
    simp only [saveStops, List.foldl_cons]
    by_cases hs : s ∈ rest
    · exact ih (putStop db (stopToRecord a)) hs
        (fun t ht h' => huniq t (List.mem_cons_of_mem a ht) h')
    · have hsa : s = a := by
        rcases List.mem_cons.mp hmem with h' | h'
        · exact h'
        · exact absurd h' hs
      have hrest : ∀ t ∈ rest, ¬ t.id = s.id := by
        intro t ht heq
        have := huniq t (List.mem_cons_of_mem a ht) heq
        rw [this] at ht
        exact hs ht
      have hnm := find?_saveStops_not_mem (putStop db (stopToRecord a)) rest s.id hrest
      simp only [saveStops] at hnm
      rw [hnm, hsa]
      exact find?_putStop_self db (stopToRecord a)

/-- C4: `saveStops` then `getStop` round-trips every saved stop (whose
id is written once in the batch): the six base fields match and
`distance`/`realDistance` are zero; the legacy display fields take
their defaults. -/
theorem saveStops_getStop (db : StopsDb) (stops : List UnifiedStop) (s : UnifiedStop)
    (hmem : s ∈ stops) (huniq : ∀ t ∈ stops, t.id = s.id → t = s) :
    getStop (saveStops db stops) s.id = some
      { id := s.id, code := s.code, agency := s.agency, name := s.name,
        lat := s.lat, lon := s.lon, distance := 0, realDistance := 0,
        title := s.name, lines := [], directions := "", type := none } := by
  unfold getStop
  rw [find?_saveStops_mem db stops s hmem huniq]
  simp [recordToStopWithDistance, stopToRecord, jsStrOr]

/-- Witness for C4: one saved stop round-trips. -/
theorem saveStops_getStop_witness :
    getStop (saveStops []
      [{ id := "GO_UN", code := "UN", agency := AgencyID.go, name := "Union Station",
         lat := 43, lon := -79 }]) "GO_UN" = some
      { id := "GO_UN", code := "UN", agency := AgencyID.go, name := "Union Station",
        lat := 43, lon := -79, distance := 0, realDistance := 0,
        title := "Union Station", lines := [], directions := "", type := none } :=
  saveStops_getStop []
    [{ id := "GO_UN", code := "UN", agency := AgencyID.go, name := "Union Station",
       lat := 43, lon := -79 }]
    { id := "GO_UN", code := "UN", agency := AgencyID.go, name := "Union Station",
      lat := 43, lon := -79 }
    (List.mem_singleton.mpr rfl)
    (by
      intro t ht _
      simpa using ht)

/-- C3: every stop returned by `getStopsWithinRange` lies in the
latitude band `[lat-range, lat+range]` and the longitude band
`[lon-range, lon+range]`, its planar distance
`sqrt(dLat^2 + dLon^2)` from the query point does not exceed `range`,
it matches the agency filter when one is given, and the returned list
is sorted non-decreasing by `realDistance` — for every store state,
query point, radius, filter, and any haversine implementation. -/
theorem getStopsWithinRange_sound (realDist : ℚ → ℚ → ℚ → ℚ → ℚ) (db : StopsDb)
    (lat lon range : ℚ) (agencyFilter : Option AgencyID) (s : StopWithDistance)
    (hmem : s ∈ getStopsWithinRange realDist db lat lon range agencyFilter) :
    (lat - range ≤ s.lat ∧ s.lat ≤ lat + range) ∧
    (lon - range ≤ s.lon ∧ s.lon ≤ lon + range) ∧
    Real.sqrt (((s.lat - lat) ^ 2 + (s.lon - lon) ^ 2 : ℚ) : ℝ) ≤ (range : ℝ) ∧
    (∀ a : AgencyID, agencyFilter = some a → s.agency = a) ∧
    List.Sorted byRealDistance (getStopsWithinRange realDist db lat lon range agencyFilter) := by
  have hsorted :
      List.Sorted byRealDistance (getStopsWithinRange realDist db lat lon range agencyFilter) := by
    simp only [getStopsWithinRange]
    exact List.sorted_insertionSort byRealDistance _
  simp only [getStopsWithinRange, List.mem_insertionSort, List.mem_filterMap] at hmem
  obtain ⟨stop, _hstop, hs⟩ := hmem
  split_ifs at hs with h1 h2 h3 h4
  · have hrec := Option.some.inj hs
    obtain ⟨h1a, h1b⟩ := h1
    obtain ⟨h2a, h2b⟩ := h2
    obtain ⟨h4a, h4b⟩ := h4
    subst hrec
    refine ⟨⟨h1a, h1b⟩, ⟨h2a, h2b⟩, ?_, ?_, hsorted⟩
    · exact (sqrt_le_iff_rat _ _).mpr ⟨h4a, h4b⟩
    · intro a ha
      rw [ha] at h3
      exact h3

/-- Witness for C3: one stop at the query point, radius 1. -/
theorem getStopsWithinRange_sound_witness :
    ((0 : ℚ) - 1 ≤ (recordToStopWithDistance
        { id := "GO_UN", code := "UN", agency := AgencyID.go, name := "Union Station",
          lat := 0, lon := 0 }).lat ∧
      (recordToStopWithDistance
        { id := "GO_UN", code := "UN", agency := AgencyID.go, name := "Union Station",
          lat := 0, lon := 0 }).lat ≤ 0 + 1) ∧
    ((0 : ℚ) - 1 ≤ (recordToStopWithDistance
        { id := "GO_UN", code := "UN", agency := AgencyID.go, name := "Union Station",
          lat := 0, lon := 0 }).lon ∧
      (recordToStopWithDistance
        { id := "GO_UN", code := "UN", agency := AgencyID.go, name := "Union Station",
          lat := 0, lon := 0 }).lon ≤ 0 + 1) ∧
    Real.sqrt ((((recordToStopWithDistance
        { id := "GO_UN", code := "UN", agency := AgencyID.go, name := "Union Station",
          lat := 0, lon := 0 }).lat - 0) ^ 2 + ((recordToStopWithDistance
        { id := "GO_UN", code := "UN", agency := AgencyID.go, name := "Union Station",
          lat := 0, lon := 0 }).lon - 0) ^ 2 : ℚ) : ℝ) ≤ ((1 : ℚ) : ℝ) ∧
    (∀ a : AgencyID, (none : Option AgencyID) = some a → (recordToStopWithDistance
        { id := "GO_UN", code := "UN", agency := AgencyID.go, name := "Union Station",
          lat := 0, lon := 0 }).agency = a) ∧
    List.Sorted byRealDistance (getStopsWithinRange (fun _ _ _ _ => 0)
      [{ id := "GO_UN", code := "UN", agency := AgencyID.go, name := "Union Station",
         lat := 0, lon := 0 }] 0 0 1 none) :=
  getStopsWithinRange_sound (fun _ _ _ _ => 0)
    [{ id := "GO_UN", code := "UN", agency := AgencyID.go, name := "Union Station",
       lat := 0, lon := 0 }] 0 0 1 none
    (recordToStopWithDistance
      { id := "GO_UN", code := "UN", agency := AgencyID.go, name := "Union Station",
        lat := 0, lon := 0 })
    (by
      simp only [getStopsWithinRange, List.mem_insertionSort, List.mem_filterMap]
      refine ⟨{ id := "GO_UN", code := "UN", agency := AgencyID.go, name := "Union Station", lat := 0, lon := 0 }, List.mem_singleton.mpr rfl, ?_⟩
      norm_num [agencyMatches, recordToStopWithDistance, jsStrOr])

end GTT
